import Mathlib

/-
Verification of the oura-mcp server (src/index.ts, src/provider/oura_provider.ts)
against its natural-language specification.

The TypeScript source is shallowly embedded below:
  * JSON values are modelled by the inductive type JVal; JSON.parse and
    JSON.stringify are modelled by parseJson and stringifyJ.  Number literals
    are kept as their source lexeme (exact for canonical literals; JavaScript
    float re-normalisation of non-canonical numerals is out of modelled scope).
  * The process output layer (console rebinding in index.ts lines 14-18) is
    modelled by WriteCall / route.
  * The endpoint catalog, fetchOuraData, the resource handlers and the tool
    handlers of oura_provider.ts are modelled by endpoints, fetchOuraData,
    resourceHandler and toolHandler; the HTTP response returned by the network
    is passed in as an explicit HttpResponse value.
  * Date.now() is modelled as an integer count of milliseconds since the Unix
    epoch; toISOString().split('T')[0] is modelled by toISODate via the
    standard civil-from-days calendar conversion (valid for years 0-9999,
    the range in which toISOString uses the plain YYYY-MM-DD form).
  * validateConfig and main of index.ts are modelled by validateConfig and
    mainStartup.
-/

namespace OuraMcp

/-! ## JSON values, parser and serializer -/

inductive JVal where
  | jnull : JVal
  | jbool : Bool → JVal
  | jnum : String → JVal
  | jstr : String → JVal
  | jarr : List JVal → JVal
  | jobj : List (String × JVal) → JVal
deriving Repr, BEq, Inhabited

def isWsChar (c : Char) : Bool :=
  c == ' ' || c == '\t' || c == '\n' || c == '\r'

def skipWs (cs : List Char) : List Char :=
  cs.dropWhile isWsChar

def isDigitChar (c : Char) : Bool :=
  48 ≤ c.toNat && c.toNat ≤ 57

/-- Value of one hex digit, in any of the three ASCII digit ranges. -/
def hexVal (c : Char) : Option Nat :=
  let n := c.toNat
  if 48 ≤ n && n ≤ 57 then some (n - 48)
  else if 97 ≤ n && n ≤ 102 then some (n - 87)
  else if 65 ≤ n && n ≤ 70 then some (n - 55)
  else none

/-- Body of a JSON string literal, after the opening quote; returns the
decoded characters and the remainder after the closing quote. -/
def parseStrBody : Nat → List Char → Option (List Char × List Char)
  | 0, _ => none
  | _, [] => none
  | fuel + 1, c :: rest =>
    if c == '"' then
      some ([], rest)
    else if c == '\\' then
      match rest with
      | '"' :: r => do
          let (s, r2) ← parseStrBody fuel r
          pure ('"' :: s, r2)
      | '\\' :: r => do
          let (s, r2) ← parseStrBody fuel r
          pure ('\\' :: s, r2)
      | '/' :: r => do
          let (s, r2) ← parseStrBody fuel r
          pure ('/' :: s, r2)
      | 'b' :: r => do
          let (s, r2) ← parseStrBody fuel r
          pure (Char.ofNat 8 :: s, r2)
      | 'f' :: r => do
          let (s, r2) ← parseStrBody fuel r
          pure (Char.ofNat 12 :: s, r2)
      | 'n' :: r => do
          let (s, r2) ← parseStrBody fuel r
          pure ('\n' :: s, r2)
      | 'r' :: r => do
          let (s, r2) ← parseStrBody fuel r
          pure ('\r' :: s, r2)
      | 't' :: r => do
          let (s, r2) ← parseStrBody fuel r
          pure ('\t' :: s, r2)
      | 'u' :: h1 :: h2 :: h3 :: h4 :: r => do
          let d1 ← hexVal h1
          let d2 ← hexVal h2
          let d3 ← hexVal h3
          let d4 ← hexVal h4
          let (s, r2) ← parseStrBody fuel r
          pure (Char.ofNat (((d1 * 16 + d2) * 16 + d3) * 16 + d4) :: s, r2)
      | _ => none
    else do
      let (s, r2) ← parseStrBody fuel rest
      pure (c :: s, r2)

/-- Lexeme of a JSON number: optional minus, digits, optional fraction,
optional exponent. -/
def parseNumLex (cs : List Char) : Option (List Char × List Char) :=
  let (neg, cs1) :=
    match cs with
    | '-' :: r => (['-'], r)
    | _ => ([], cs)
  match cs1.span isDigitChar with
  | ([], _) => none
  | (ds, rest) =>
    let (frac, rest2) :=
      match rest with
      | '.' :: r =>
        match r.span isDigitChar with
        | ([], _) => ([], rest)
        | (fs, r2) => ('.' :: fs, r2)
      | _ => ([], rest)
    let (expo, rest3) :=
      match rest2 with
      | e :: r =>
        if e == 'e' || e == 'E' then
          let (sgn, r1) :=
            match r with
            | '+' :: rr => (['+'], rr)
            | '-' :: rr => (['-'], rr)
            | _ => ([], r)
          match r1.span isDigitChar with
          | ([], _) => ([], rest2)
          | (es, r2) => (e :: sgn ++ es, r2)
        else ([], rest2)
      | _ => ([], rest2)
    some (neg ++ ds ++ frac ++ expo, rest3)

mutual

def parseVal : Nat → List Char → Option (JVal × List Char)
  | 0, _ => none
  | fuel + 1, cs =>
    match skipWs cs with
    | [] => none
    | c :: rest =>
      if c.toNat == 123 then
        match skipWs rest with
        | c2 :: r2 =>
          if c2.toNat == 125 then some (.jobj [], r2)
          else do
            let (ms, r3) ← parseMembers fuel (c2 :: r2)
            pure (.jobj ms, r3)
        | [] => none
      else if c == '[' then
        match skipWs rest with
        | ']' :: r2 => some (.jarr [], r2)
        | r2 => do
            let (vs, r3) ← parseElems fuel r2
            pure (.jarr vs, r3)
      else if c == '"' then do
        let (s, r2) ← parseStrBody (rest.length + 1) rest
        pure (.jstr (String.mk s), r2)
      else if c == 't' then
        match rest with
        | 'r' :: 'u' :: 'e' :: r => some (.jbool true, r)
        | _ => none
      else if c == 'f' then
        match rest with
        | 'a' :: 'l' :: 's' :: 'e' :: r => some (.jbool false, r)
        | _ => none
      else if c == 'n' then
        match rest with
        | 'u' :: 'l' :: 'l' :: r => some (.jnull, r)
        | _ => none
      else
        match parseNumLex (c :: rest) with
        | some (lex, r2) => some (.jnum (String.mk lex), r2)
        | none => none

def parseMembers : Nat → List Char → Option (List (String × JVal) × List Char)
  | 0, _ => none
  | fuel + 1, cs =>
    match skipWs cs with
    | '"' :: r => do
        let (k, r2) ← parseStrBody (r.length + 1) r
        match skipWs r2 with
        | ':' :: r3 => do
            let (v, r4) ← parseVal fuel r3
            match skipWs r4 with
            | ',' :: r5 => do
                let (ms, r6) ← parseMembers fuel r5
                pure ((String.mk k, v) :: ms, r6)
            | c5 :: r5 =>
                if c5.toNat == 125 then pure ([(String.mk k, v)], r5) else none
            | [] => none
        | _ => none
    | _ => none

def parseElems : Nat → List Char → Option (List JVal × List Char)
  | 0, _ => none
  | fuel + 1, cs => do
      let (v, r) ← parseVal fuel cs
      match skipWs r with
      | ',' :: r2 => do
          let (vs, r3) ← parseElems fuel r2
          pure (v :: vs, r3)
      | ']' :: r2 => pure ([v], r2)
      | _ => none

end

/-- Model of JSON.parse: the whole input must be one JSON value surrounded by
optional whitespace. -/
def parseJson (s : String) : Option JVal :=
  match parseVal (2 * s.length + 4) s.data with
  | some (v, rest) => if skipWs rest = [] then some v else none
  | none => none

def hexDigit (n : Nat) : Char :=
  if n < 10 then Char.ofNat ('0'.toNat + n) else Char.ofNat ('a'.toNat + n - 10)

def escChar (c : Char) : List Char :=
  if c == '"' then ['\\', '"']
  else if c == '\\' then ['\\', '\\']
  else if c == '\n' then ['\\', 'n']
  else if c == '\t' then ['\\', 't']
  else if c == '\r' then ['\\', 'r']
  else if c.toNat == 8 then ['\\', 'b']
  else if c.toNat == 12 then ['\\', 'f']
  else if c.toNat < 32 then
    ['\\', 'u', '0', '0', hexDigit (c.toNat / 16), hexDigit (c.toNat % 16)]
  else [c]

def escString (s : String) : String :=
  String.mk ('"' :: (s.data.map escChar).flatten ++ ['"'])

mutual

/-- Model of JSON.stringify on an already-parsed JSON value. -/
def stringifyJ : JVal → String
  | .jnull => "null"
  | .jbool true => "true"
  | .jbool false => "false"
  | .jnum lex => lex
  | .jstr s => escString s
  | .jarr vs => "[" ++ stringifyArr vs ++ "]"
  | .jobj ms => "\x7b" ++ stringifyObj ms ++ "\x7d"

def stringifyArr : List JVal → String
  | [] => ""
  | [v] => stringifyJ v
  | v :: v2 :: vs => stringifyJ v ++ "," ++ stringifyArr (v2 :: vs)

def stringifyObj : List (String × JVal) → String
  | [] => ""
  | [(k, v)] => escString k ++ ":" ++ stringifyJ v
  | (k, v) :: m2 :: ms => escString k ++ ":" ++ stringifyJ v ++ "," ++ stringifyObj (m2 :: ms)

end

/-- Predicate of the spec's OutputGuard invariant: the candidate bytes parse
as a JSON object whose top level contains a jsonrpc key. -/
def isJsonRpcFrame (s : String) : Bool :=
  match parseJson s with
  | some (.jobj ms) => ms.any (fun kv => kv.1 == "jsonrpc")
  | _ => false

/-! ## Process output layer (index.ts lines 7-18)

The code rebinds console.log, console.info, console.warn and console.debug to
console.error (which writes to stderr) and deliberately leaves process.stdout
untouched ("Don't override stdout - let MCP SDK handle the protocol
directly").  So routing of a candidate write is decided purely by which call
site emitted it, never by its content. -/

inductive Channel where
  | transport : Channel
  | diagnostic : Channel
deriving DecidableEq, Repr

inductive WriteCall where
  | stdoutWrite (s : String) : WriteCall
  | stderrWrite (s : String) : WriteCall
  | consoleLog (s : String) : WriteCall
  | consoleInfo (s : String) : WriteCall
  | consoleWarn (s : String) : WriteCall
  | consoleDebug (s : String) : WriteCall
  | consoleError (s : String) : WriteCall
deriving Repr

def WriteCall.payload : WriteCall → String
  | .stdoutWrite s => s
  | .stderrWrite s => s
  | .consoleLog s => s
  | .consoleInfo s => s
  | .consoleWarn s => s
  | .consoleDebug s => s
  | .consoleError s => s

/-- Channel each write call reaches after the rebinding of index.ts lines
14-18: the four generic console methods are aliased to console.error, hence
stderr (the diagnostic channel); stdout (the transport) is not intercepted. -/
def route : WriteCall → Channel
  | .stdoutWrite _ => .transport
  | .stderrWrite _ => .diagnostic
  | .consoleLog _ => .diagnostic
  | .consoleInfo _ => .diagnostic
  | .consoleWarn _ => .diagnostic
  | .consoleDebug _ => .diagnostic
  | .consoleError _ => .diagnostic

/-! ## Calendar dates

JavaScript Date values are an integer count of milliseconds since the Unix
epoch (UTC); toISOString renders the UTC calendar date, so the date part is
determined by the floor-division day number.  civilFromDays is the standard
days-to-civil conversion. -/

def msPerDay : Int := 86400000

def utcDayNumber (ms : Int) : Int := ms.fdiv msPerDay

/-- Gregorian calendar date (year, month, day) of a day number counted from
1970-01-01. -/
def civilFromDays (z0 : Int) : Int × Nat × Nat :=
  let z := z0 + 719468
  let era := z.fdiv 146097
  let doe := (z - era * 146097).toNat
  let yoe := (doe - doe / 1460 + doe / 36524 - doe / 146096) / 365
  let y := (yoe : Int) + era * 400
  let doy := doe - (365 * yoe + yoe / 4 - yoe / 100)
  let mp := (5 * doy + 2) / 153
  let d := doy - (153 * mp + 2) / 5 + 1
  let m := if mp < 10 then mp + 3 else mp - 9
  (if m ≤ 2 then y + 1 else y, m, d)

def pad2 (n : Nat) : String :=
  if n < 10 then "0" ++ toString n else toString n

def pad4 (n : Nat) : String :=
  if n < 10 then "000" ++ toString n
  else if n < 100 then "00" ++ toString n
  else if n < 1000 then "0" ++ toString n
  else toString n

/-- Model of new Date(ms).toISOString().split('T')[0] for years 0-9999. -/
def toISODate (ms : Int) : String :=
  match civilFromDays (utcDayNumber ms) with
  | (y, m, d) => pad4 y.toNat ++ "-" ++ pad2 m ++ "-" ++ pad2 d

/-! ## Endpoint catalog (oura_provider.ts lines 148-234) -/

structure Endpoint where
  name : String
  requiresDates : Bool
  description : String
deriving Repr, DecidableEq

def endpoints : List Endpoint := [
  { name := "personal_info",
    requiresDates := false,
    description := "Get user profile information including age, email, and biological sex" },
  { name := "daily_activity",
    requiresDates := true,
    description := "Get daily activity metrics including steps, calories burned, activity targets, movement metrics, and sedentary time. Returns activity score and detailed breakdown." },
  { name := "daily_readiness",
    requiresDates := true,
    description := "Get daily readiness scores and contributing factors including body temperature, HRV balance, recovery metrics, and previous day activity impact. Indicates overall recovery state." },
  { name := "daily_sleep",
    requiresDates := true,
    description := "Get daily sleep summaries including total sleep time, sleep stages breakdown, sleep score, efficiency, and timing. Provides high-level sleep quality insights." },
  { name := "sleep",
    requiresDates := true,
    description := "Get detailed sleep session data with 5-minute granularity including heart rate, HRV, movement, sleep stages, and respiratory rate throughout the night." },
  { name := "sleep_time",
    requiresDates := true,
    description := "Get recommended bedtime windows based on sleep patterns and circadian rhythm. Helps optimize sleep timing for better recovery." },
  { name := "workout",
    requiresDates := true,
    description := "Get workout sessions including activity type, duration, intensity, calories burned, and heart rate data during exercise periods." },
  { name := "session",
    requiresDates := true,
    description := "Get meditation, breathing, or other mindfulness sessions including type, duration, and physiological responses like heart rate and HRV." },
  { name := "daily_spo2",
    requiresDates := true,
    description := "Get daily blood oxygen saturation (SpO2) averages and breathing regularity metrics. Useful for altitude adaptation and respiratory health tracking." },
  { name := "rest_mode_period",
    requiresDates := true,
    description := "Get rest mode periods when the user explicitly enabled rest/recovery mode. Indicates intentional recovery periods or illness." },
  { name := "ring_configuration",
    requiresDates := false,
    description := "Get Oura ring hardware configuration including color, design, firmware version, and hardware generation details." },
  { name := "daily_stress",
    requiresDates := true,
    description := "Get daily stress metrics including daytime stress levels, stress high/recovery time balance, and restoration periods throughout the day." },
  { name := "daily_resilience",
    requiresDates := true,
    description := "Get daily resilience scores showing ability to handle stress based on long-term HRV trends and recovery patterns over the past 2 weeks." },
  { name := "daily_cardiovascular_age",
    requiresDates := true,
    description := "Get estimated cardiovascular age based on HRV, resting heart rate, and other cardiac metrics compared to population norms." },
  { name := "vO2_max",
    requiresDates := true,
    description := "Get estimated VO2 max (maximal oxygen uptake) values indicating cardiovascular fitness level based on heart rate during activities." },
  { name := "heartrate",
    requiresDates := true,
    description := "Get individual heart rate measurements throughout the day including daytime and workout heart rate. Returns BPM values with timestamps and measurement source." },
  { name := "enhanced_tag",
    requiresDates := true,
    description := "Get multi-day tags with optional comments for annotating events, symptoms, or behaviors. Includes tag type, start/end times, and custom notes." }
]

/-- URIs of the resources registered by the forEach over endpoints
(oura_provider.ts lines 237-260). -/
def resourceUris : List String :=
  endpoints.map (fun e => "oura://" ++ e.name)

/-- Names of the tools registered by the filtered forEach over endpoints
(oura_provider.ts lines 263-294). -/
def toolNames : List String :=
  (endpoints.filter (fun e => e.requiresDates)).map (fun e => "get_" ++ e.name)

/-! ## fetchOuraData (oura_provider.ts lines 110-138)

The network is external, so the model takes the HTTP response the fetch call
would resolve to as an explicit argument.  The params argument is recorded in
the request URL exactly as url.searchParams would render it. -/

structure HttpResponse where
  ok : Bool
  status : Nat
  statusText : String
  body : String
deriving Repr

def queryString : List (String × String) → String
  | [] => ""
  | ps => "?" ++ String.intercalate "&" (ps.map (fun p => p.1 ++ "=" ++ p.2))

def requestUrl (baseUrl endpoint : String) (params : Option (List (String × String))) : String :=
  baseUrl ++ "/usercollection/" ++ endpoint ++
    (match params with
     | some ps => queryString ps
     | none => "")

/-- Message of the SyntaxError produced when response.json() fails; the exact
engine-specific text is irrelevant to every claim and abstracted here. -/
def jsonParseFailureMsg : String := "Unexpected token in JSON"

/-- Body of fetchOuraData: the try block either resolves the parsed JSON body
or throws; the catch block rewraps every thrown Error message with the same
endpoint prefix. -/
def fetchOuraData (endpoint : String) (resp : HttpResponse) : Except String JVal :=
  let attempt : Except String JVal :=
    if resp.ok then
      match parseJson resp.body with
      | some v => .ok v
      | none => .error jsonParseFailureMsg
    else
      .error ("Failed to fetch " ++ endpoint ++ ": " ++ toString resp.status ++ " " ++ resp.statusText)
  match attempt with
  | .ok v => .ok v
  | .error m => .error ("Failed to fetch " ++ endpoint ++ ": " ++ m)

/-! ## Resource handlers (oura_provider.ts lines 237-260) -/

structure ResourceContents where
  uri : String
  text : String
deriving Repr, DecidableEq

/-- Trace of one resource read: the handler result plus what was passed to
the upstream fetch. -/
structure ResourceReadTrace where
  result : Except String (List ResourceContents)
  fetchCalls : Nat
  fetchParams : Option (List (String × String))
deriving Repr

/-- Resource handler generated for one catalog entry: with no caller
arguments, a date-ranged entry gets endDate = today and
startDate = Date.now() minus 7*24*60*60*1000 milliseconds. -/
def resourceHandler (e : Endpoint) (now : Int) (resp : HttpResponse) : ResourceReadTrace :=
  if e.requiresDates then
    let endDate := toISODate now
    let startDate := toISODate (now - 7 * 24 * 60 * 60 * 1000)
    let ps := [("start_date", startDate), ("end_date", endDate)]
    match fetchOuraData e.name resp with
    | .ok data =>
      { result := .ok [{ uri := "oura://" ++ e.name, text := stringifyJ data }],
        fetchCalls := 1, fetchParams := some ps }
    | .error m => { result := .error m, fetchCalls := 1, fetchParams := some ps }
  else
    match fetchOuraData e.name resp with
    | .ok data =>
      { result := .ok [{ uri := "oura://" ++ e.name, text := stringifyJ data }],
        fetchCalls := 1, fetchParams := none }
    | .error m => { result := .error m, fetchCalls := 1, fetchParams := none }

/-! ## Tool handlers (oura_provider.ts lines 263-294) -/

/-- Caller-supplied tool arguments: absent, a non-object value, or an object
whose startDate / endDate fields may each be absent. -/
inductive ToolInput where
  | missing : ToolInput
  | nonObject : ToolInput
  | object (startDate endDate : Option String) : ToolInput
deriving Repr

structure ContentItem where
  type : String
  text : String
deriving Repr, DecidableEq

structure ToolResult where
  content : List ContentItem
deriving Repr, DecidableEq

/-- Trace of one tool invocation: handler result, number of upstream fetch
calls made, and the params passed to the fetch when one was made. -/
structure ToolCallTrace where
  result : Except String ToolResult
  fetchCalls : Nat
  fetchParams : Option (List (String × String))
deriving Repr

def invalidArgsMsg (name : String) : String :=
  "Invalid arguments for " ++ name ++ ": expected object with startDate and endDate"

def missingParamsMsg (name : String) : String :=
  "Missing required parameters for " ++ name ++ ": startDate and endDate are required"

/-- Tool handler generated for one date-ranged catalog entry.  The falsiness
test !startDate || !endDate of the source treats an absent field and an
empty-string field alike. -/
def toolHandler (name : String) (input : ToolInput) (resp : HttpResponse) : ToolCallTrace :=
  match input with
  | .missing => { result := .error (invalidArgsMsg name), fetchCalls := 0, fetchParams := none }
  | .nonObject => { result := .error (invalidArgsMsg name), fetchCalls := 0, fetchParams := none }
  | .object s e =>
    match s, e with
    | some sv, some ev =>
      if sv == "" || ev == "" then
        { result := .error (missingParamsMsg name), fetchCalls := 0, fetchParams := none }
      else
        let ps := [("start_date", sv), ("end_date", ev)]
        match fetchOuraData name resp with
        | .ok data =>
          { result := .ok { content := [{ type := "text", text := stringifyJ data }] },
            fetchCalls := 1, fetchParams := some ps }
        | .error m => { result := .error m, fetchCalls := 1, fetchParams := some ps }
    | _, _ => { result := .error (missingParamsMsg name), fetchCalls := 0, fetchParams := none }

/-! ## Configuration validation and startup (index.ts lines 33-78)

Environment variables default to the empty string, and JavaScript string
falsiness is emptiness, so validateConfig rejects exactly when the token is
empty and at least one of clientId / clientSecret is empty.  main runs
validateConfig before constructing the provider or the transport. -/

structure OuraConfigInput where
  personalAccessToken : String
  clientId : String
  clientSecret : String
  redirectUri : String
deriving Repr

def configErrMsg : String :=
  "Either OURA_PERSONAL_ACCESS_TOKEN or both OURA_CLIENT_ID and OURA_CLIENT_SECRET must be provided"

def validateConfig (c : OuraConfigInput) : Except String Unit :=
  if c.personalAccessToken == "" && (c.clientId == "" || c.clientSecret == "") then
    .error configErrMsg
  else
    .ok ()

inductive StartupStep where
  | providerConstructed : StartupStep
  | transportConnected : StartupStep
deriving DecidableEq, Repr

/-- Startup sequence of main: the steps that were performed, and the error
that aborted it if validation failed. -/
def mainStartup (c : OuraConfigInput) : List StartupStep × Option String :=
  match validateConfig c with
  | .error m => ([], some m)
  | .ok _ => ([.providerConstructed, .transportConnected], none)

/-! ## Concrete values used by the claim theorems -/

/-- Epoch milliseconds of 2024-06-10T12:00:00Z (epoch day 19884), the
mocked "today" of the specification's end-to-end scenario. -/
def cexNow : Int := 19884 * 86400000 + 43200000

def okEmptyResp : HttpResponse :=
  { ok := true, status := 200, statusText := "OK", body := "\x7b\x7d" }

def dailySleepEntry : Endpoint := endpoints.get ⟨3, by decide⟩

def fetchLogLine : String := "Fetching workout data 2024-05-01..."

def rpcFrame : String := "\x7b\"jsonrpc\":\"2.0\",\"id\":1,\"result\":\x7b\x7d\x7d"

def bigBodyResp : HttpResponse :=
  { ok := false, status := 404, statusText := "Not Found",
    body := String.mk (List.replicate 1000 'A') }

def sleepBody : String := "\x7b\"data\":[\x7b\"score\":82\x7d]\x7d"

def sleepResp : HttpResponse :=
  { ok := true, status := 200, statusText := "OK", body := sleepBody }

def sleepVal : JVal := .jobj [("data", .jarr [.jobj [("score", .jnum "82")]])]

def cfgNone : OuraConfigInput :=
  { personalAccessToken := "", clientId := "", clientSecret := "",
    redirectUri := "http://localhost:3000/callback" }

def cfgStatic : OuraConfigInput :=
  { personalAccessToken := "pat-token", clientId := "", clientSecret := "",
    redirectUri := "http://localhost:3000/callback" }

/-! ## Claim C1: default date window of date-ranged resource reads -/

/-- Claim C1 counterexample: at the mocked instant 2024-06-10T12:00:00Z the
handler passes start_date = 2024-06-03 to the upstream fetch, which is 7
calendar days before the end date, not the 6 days (start 2024-06-04) the
claim requires. -/
theorem resource_default_window_cex :
    (resourceHandler dailySleepEntry cexNow okEmptyResp).fetchParams =
      some [("start_date", "2024-06-03"), ("end_date", "2024-06-10")] ∧
    toISODate (cexNow - 6 * msPerDay) = "2024-06-04" ∧
    ("2024-06-03" : String) ≠ "2024-06-04" := by
  refine ⟨?_, ?_, ?_⟩ <;> decide

/-- Claim C1 (amended): a date-ranged resource read without caller-supplied
arguments synthesizes endDate = the current UTC date and startDate = the date
of the instant 7*24h earlier, which is exactly 7 calendar days earlier, so
the range spans 8 calendar days ending on the current date inclusive, and the
range is passed to the upstream fetch as start_date / end_date. -/
theorem resource_default_window (e : Endpoint) (now : Int) (r : HttpResponse)
    (h : e.requiresDates = true) :
    (resourceHandler e now r).fetchParams =
      some [("start_date", toISODate (now - 7 * 24 * 60 * 60 * 1000)),
            ("end_date", toISODate now)] ∧
    utcDayNumber (now - 7 * 24 * 60 * 60 * 1000) = utcDayNumber now - 7 := by
  constructor
  · unfold resourceHandler
    rw [h]
    cases hf : fetchOuraData e.name r <;> simp [hf]
  · unfold utcDayNumber msPerDay
    have hb : (0 : Int) ≤ 86400000 := by norm_num
    rw [Int.fdiv_eq_ediv _ hb, Int.fdiv_eq_ediv _ hb]
    have hrw : now - 7 * 24 * 60 * 60 * 1000 = now + (-7) * 86400000 := by ring
    rw [hrw, Int.add_mul_ediv_right _ _ (by norm_num : (86400000 : Int) ≠ 0)]
    ring

/-- Witness for resource_default_window at the daily_sleep catalog entry and
the mocked instant of the end-to-end scenario. -/
theorem resource_default_window_witness :
    dailySleepEntry.requiresDates = true ∧
    ((resourceHandler dailySleepEntry cexNow okEmptyResp).fetchParams =
       some [("start_date", toISODate (cexNow - 7 * 24 * 60 * 60 * 1000)),
             ("end_date", toISODate cexNow)] ∧
     utcDayNumber (cexNow - 7 * 24 * 60 * 60 * 1000) = utcDayNumber cexNow - 7) :=
  ⟨by decide, resource_default_window dailySleepEntry cexNow okEmptyResp (by decide)⟩

/-! ## Claim C2: output stream discipline -/

/-- Claim C2 counterexample: routing is decided by call site, not content.  A
direct write of a non-JSON-RPC string to the primary output stream reaches
the transport (stdout is deliberately not intercepted), and a generic logging
call carrying a literal JSON-RPC frame goes to the diagnostic channel. -/
theorem output_routing_cex :
    route (.stdoutWrite fetchLogLine) = .transport ∧
    isJsonRpcFrame fetchLogLine = false ∧
    route (.consoleLog rpcFrame) = .diagnostic ∧
    isJsonRpcFrame rpcFrame = true :=
  ⟨rfl, by decide, rfl, by decide⟩

/-- Claim C2 (amended): all generic logging calls (console.log, console.info,
console.warn, console.debug) are redirected to the diagnostic channel and
never appear on the transport stream, regardless of content; the primary
output stream itself is not guarded, so a write to it reaches the transport
whether or not it parses as a JSON object with a jsonrpc field. -/
theorem console_rebinding_routes_by_call_site (s : String) :
    route (.consoleLog s) = .diagnostic ∧
    route (.consoleInfo s) = .diagnostic ∧
    route (.consoleWarn s) = .diagnostic ∧
    route (.consoleDebug s) = .diagnostic ∧
    route (.stdoutWrite s) = .transport :=
  ⟨rfl, rfl, rfl, rfl, rfl⟩

/-! ## Claim C3: catalog size and registrations -/

/-- Claim C3 counterexample: the endpoint catalog has 17 entries, not 16. -/
theorem catalog_seventeen_entries_cex :
    endpoints.length = 17 ∧ ¬ endpoints.length = 16 := by
  refine ⟨?_, ?_⟩ <;> decide

/-- Claim C3 (amended): the catalog contains exactly 17 entries; a resource
addressed oura://name is registered for every entry; a get_name tool is
registered for an entry if and only if the entry is date-ranged; the
non-date-ranged entries are exactly personal_info and ring_configuration. -/
theorem catalog_registration :
    endpoints.length = 17 ∧
    resourceUris = ["oura://personal_info", "oura://daily_activity",
      "oura://daily_readiness", "oura://daily_sleep", "oura://sleep",
      "oura://sleep_time", "oura://workout", "oura://session",
      "oura://daily_spo2", "oura://rest_mode_period", "oura://ring_configuration",
      "oura://daily_stress", "oura://daily_resilience",
      "oura://daily_cardiovascular_age", "oura://vO2_max", "oura://heartrate",
      "oura://enhanced_tag"] ∧
    toolNames = ["get_daily_activity", "get_daily_readiness", "get_daily_sleep",
      "get_sleep", "get_sleep_time", "get_workout", "get_session",
      "get_daily_spo2", "get_rest_mode_period", "get_daily_stress",
      "get_daily_resilience", "get_daily_cardiovascular_age", "get_vO2_max",
      "get_heartrate", "get_enhanced_tag"] ∧
    (endpoints.all (fun e => toolNames.contains ("get_" ++ e.name) == e.requiresDates)) = true ∧
    (endpoints.all (fun e =>
      (!e.requiresDates) == (e.name == "personal_info" || e.name == "ring_configuration"))) = true := by
  refine ⟨?_, ?_, ?_, ?_, ?_⟩ <;> decide

/-! ## Claim C4: non-success status errors never include the body -/

/-- Claim C4: for every non-success upstream response the fetch fails with an
error whose message contains the status code and the status text, and the
message is the same whatever the response body is, so no part of the body
ever appears in it. -/
theorem fetch_error_excludes_body (ep : String) (r : HttpResponse) (h : r.ok = false) :
    ∃ m : String,
      (toString r.status).data <:+: m.data ∧
      r.statusText.data <:+: m.data ∧
      ∀ b : String, fetchOuraData ep { r with body := b } = .error m := by
  refine ⟨"Failed to fetch " ++ ep ++ ": " ++
      ("Failed to fetch " ++ ep ++ ": " ++ toString r.status ++ " " ++ r.statusText),
      ?_, ?_, ?_⟩
  · refine ⟨("Failed to fetch " ++ ep ++ ": " ++ ("Failed to fetch " ++ ep ++ ": ")).data,
      (" " ++ r.statusText).data, ?_⟩
    simp [String.data_append]
  · refine ⟨("Failed to fetch " ++ ep ++ ": " ++
      ("Failed to fetch " ++ ep ++ ": " ++ toString r.status ++ " ")).data, [], ?_⟩
    simp [String.data_append]
  · intro b
    obtain ⟨rok, rstatus, rstatusText, rbody⟩ := r
    simp only [HttpResponse.ok] at h
    simp [fetchOuraData, h]

/-- Witness for fetch_error_excludes_body on a 404 response carrying a large
synthetic body. -/
theorem fetch_error_excludes_body_witness :
    bigBodyResp.ok = false ∧
    ∃ m : String,
      (toString bigBodyResp.status).data <:+: m.data ∧
      bigBodyResp.statusText.data <:+: m.data ∧
      ∀ b : String, fetchOuraData "sleep" { bigBodyResp with body := b } = .error m :=
  ⟨rfl, fetch_error_excludes_body "sleep" bigBodyResp rfl⟩

/-! ## Claim C5: malformed tool arguments fail before any network call -/

/-- Claim C5: a tool invocation whose arguments are missing, not an object,
or lacking the startDate or endDate field fails with the validation error and
makes zero upstream fetch calls. -/
theorem tool_invalid_args_no_fetch (name : String) (input : ToolInput) (r : HttpResponse)
    (h : input = .missing ∨ input = .nonObject ∨
         ∃ s e, input = .object s e ∧ (s = none ∨ e = none)) :
    ((toolHandler name input r).result = .error (invalidArgsMsg name) ∨
     (toolHandler name input r).result = .error (missingParamsMsg name)) ∧
    (toolHandler name input r).fetchCalls = 0 := by
  rcases h with rfl | rfl | ⟨s, e, rfl, hse⟩
  · exact ⟨Or.inl rfl, rfl⟩
  · exact ⟨Or.inl rfl, rfl⟩
  · rcases hse with rfl | rfl
    · cases e <;> exact ⟨Or.inr rfl, rfl⟩
    · cases s <;> exact ⟨Or.inr rfl, rfl⟩

/-- Witness for tool_invalid_args_no_fetch with absent arguments. -/
theorem tool_invalid_args_no_fetch_witness :
    (ToolInput.missing = ToolInput.missing ∨ ToolInput.missing = ToolInput.nonObject ∨
      ∃ s e, ToolInput.missing = ToolInput.object s e ∧ (s = none ∨ e = none)) ∧
    (((toolHandler "sleep" .missing okEmptyResp).result = .error (invalidArgsMsg "sleep") ∨
      (toolHandler "sleep" .missing okEmptyResp).result = .error (missingParamsMsg "sleep")) ∧
     (toolHandler "sleep" .missing okEmptyResp).fetchCalls = 0) :=
  ⟨Or.inl rfl, tool_invalid_args_no_fetch "sleep" .missing okEmptyResp (Or.inl rfl)⟩

/-! ## Claim C9: empty-string dates are rejected like absent ones -/

/-- Claim C9: a tool invocation in which startDate or endDate is present but
equal to the empty string fails with the missing-required-parameters error
and makes zero upstream fetch calls, because the validation is a falsiness
check. -/
theorem tool_empty_string_dates_rejected (name : String) (s e : Option String)
    (r : HttpResponse) (h : s = some "" ∨ e = some "") :
    (toolHandler name (.object s e) r).result = .error (missingParamsMsg name) ∧
    (toolHandler name (.object s e) r).fetchCalls = 0 := by
  rcases h with rfl | rfl
  · cases e with
    | none => exact ⟨rfl, rfl⟩
    | some ev => simp [toolHandler]
  · cases s with
    | none => exact ⟨rfl, rfl⟩
    | some sv => simp [toolHandler]

/-- Witness for tool_empty_string_dates_rejected with an empty startDate. -/
theorem tool_empty_string_dates_rejected_witness :
    ((some "" : Option String) = some "" ∨ (some "2024-01-02" : Option String) = some "") ∧
    ((toolHandler "sleep" (.object (some "") (some "2024-01-02")) okEmptyResp).result =
       .error (missingParamsMsg "sleep") ∧
     (toolHandler "sleep" (.object (some "") (some "2024-01-02")) okEmptyResp).fetchCalls = 0) :=
  ⟨Or.inl rfl,
   tool_empty_string_dates_rejected "sleep" (some "") (some "2024-01-02") okEmptyResp (Or.inl rfl)⟩

/-! ## Claim C7: successful tool calls return the parsed payload unmodified -/

/-- Claim C7: on a successful tool invocation the upstream body is parsed as
JSON and returned unmodified in the shape
content = [ (type "text", text = JSON.stringify of the parsed payload) ],
with no schema validation and no field filtering, and the supplied dates are
passed to the fetch as start_date / end_date. -/
theorem tool_success_returns_payload_verbatim (name sv ev : String) (r : HttpResponse)
    (v : JVal) (hs : sv ≠ "") (he : ev ≠ "")
    (hok : r.ok = true) (hp : parseJson r.body = some v) :
    toolHandler name (.object (some sv) (some ev)) r =
      { result := .ok { content := [{ type := "text", text := stringifyJ v }] },
        fetchCalls := 1,
        fetchParams := some [("start_date", sv), ("end_date", ev)] } := by
  obtain ⟨rok, rstatus, rstatusText, rbody⟩ := r
  simp only [HttpResponse.ok] at hok
  simp only [HttpResponse.body] at hp
  simp [toolHandler, hs, he, fetchOuraData, hok, hp]

/-- Witness for tool_success_returns_payload_verbatim on the specification's
end-to-end example; the returned text is the upstream body byte for byte. -/
theorem tool_success_returns_payload_verbatim_witness :
    ("2024-06-04" : String) ≠ "" ∧ ("2024-06-10" : String) ≠ "" ∧
    sleepResp.ok = true ∧ parseJson sleepResp.body = some sleepVal ∧
    toolHandler "daily_sleep" (.object (some "2024-06-04") (some "2024-06-10")) sleepResp =
      { result := .ok { content := [{ type := "text", text := stringifyJ sleepVal }] },
        fetchCalls := 1,
        fetchParams := some [("start_date", "2024-06-04"), ("end_date", "2024-06-10")] } :=
  ⟨by decide, by decide, rfl, rfl,
   tool_success_returns_payload_verbatim "daily_sleep" "2024-06-04" "2024-06-10"
     sleepResp sleepVal (by decide) (by decide) rfl rfl⟩

/-! ## Claim C6: startup configuration validation -/

/-- Claim C6: startup fails with the configuration error, before any provider
or transport setup step, exactly when no static token is supplied and the
client id / client secret pair is incomplete; with a static token, or with
both OAuth fields, startup proceeds through provider construction and
transport connection. -/
theorem config_validation_gate (c : OuraConfigInput) :
    (c.personalAccessToken = "" ∧ (c.clientId = "" ∨ c.clientSecret = "") →
       mainStartup c = ([], some configErrMsg)) ∧
    (c.personalAccessToken ≠ "" ∨ (c.clientId ≠ "" ∧ c.clientSecret ≠ "") →
       mainStartup c = ([.providerConstructed, .transportConnected], none)) := by
  obtain ⟨tok, cid, sec, uri⟩ := c
  constructor
  · rintro ⟨h1, h2⟩
    have h1t : tok = "" := h1
    subst h1t
    rcases h2 with h2 | h2
    · have h2t : cid = "" := h2
      subst h2t
      simp [mainStartup, validateConfig]
    · have h2t : sec = "" := h2
      subst h2t
      simp [mainStartup, validateConfig]
  · intro h
    have hcond : ((tok == "") && (cid == "" || sec == "")) = false := by
      rcases h with h | ⟨h1, h2⟩
      · have ht : (tok == "") = false := beq_eq_false_iff_ne.mpr h
        simp [ht]
      · have h1f : (cid == "") = false := beq_eq_false_iff_ne.mpr h1
        have h2f : (sec == "") = false := beq_eq_false_iff_ne.mpr h2
        simp [h1f, h2f]
    simp [mainStartup, validateConfig, hcond]

/-- Witness for config_validation_gate: all credentials absent aborts startup
before any setup step; a static token alone lets startup complete. -/
theorem config_validation_gate_witness :
    (cfgNone.personalAccessToken = "" ∧ (cfgNone.clientId = "" ∨ cfgNone.clientSecret = "")) ∧
    mainStartup cfgNone = ([], some configErrMsg) ∧
    cfgStatic.personalAccessToken ≠ "" ∧
    mainStartup cfgStatic = ([.providerConstructed, .transportConnected], none) :=
  ⟨⟨rfl, Or.inl rfl⟩,
   (config_validation_gate cfgNone).1 ⟨rfl, Or.inl rfl⟩,
   by decide,
   (config_validation_gate cfgStatic).2 (Or.inl (by decide))⟩

/-! ## Claim C10: status errors are wrapped twice -/

/-- Claim C10: for a non-success upstream response the surfaced message is
the endpoint prefix applied twice, because the status error thrown inside the
try block is caught and re-wrapped by the same catch block. -/
theorem fetch_error_double_wrapped (ep : String) (r : HttpResponse) (h : r.ok = false) :
    fetchOuraData ep r = .error ("Failed to fetch " ++ ep ++ ": " ++
      ("Failed to fetch " ++ ep ++ ": " ++ toString r.status ++ " " ++ r.statusText)) := by
  obtain ⟨rok, rstatus, rstatusText, rbody⟩ := r
  simp only [HttpResponse.ok] at h
  simp [fetchOuraData, h]

/-- Witness for fetch_error_double_wrapped on a 404 response. -/
theorem fetch_error_double_wrapped_witness :
    bigBodyResp.ok = false ∧
    fetchOuraData "sleep" bigBodyResp = .error ("Failed to fetch " ++ "sleep" ++ ": " ++
      ("Failed to fetch " ++ "sleep" ++ ": " ++ toString bigBodyResp.status ++ " " ++
        bigBodyResp.statusText)) :=
  ⟨rfl, fetch_error_double_wrapped "sleep" bigBodyResp rfl⟩

end OuraMcp
